import Mathlib

/-
Shallow embedding of the firebary Collection accessor (TypeScript, Firestore
wrapper).  The source is a single class with query assembly, an update
projector, and CRUD verbs.  JavaScript objects are modelled as association
lists from field name to string value; undefined or null option fields are
modelled with Option; JavaScript truthiness on strings (undefined, null and
the empty string are falsy) is made explicit.
-/

namespace Firebary

/-- A JavaScript-truthiness filter for optional string values: null,
undefined and the empty string are falsy, every other string is truthy. -/
def truthy : Option String → Option String
  | some s => if s == "" then none else some s
  | none => none

/-- PagingOptions from query-options.type.ts: a cursor value (possibly null)
and a limit (passed through unvalidated). -/
structure PagingOptions where
  startAfter : Option String
  limit : Int
deriving DecidableEq, Repr

/-- WhereClause from query-options.type.ts. -/
structure WhereClause where
  field : String
  operation : String
  value : String
deriving DecidableEq, Repr

/-- WhereOptions from query-options.type.ts.  The operator is "and", "or"
or absent; pagingOptions may be absent at runtime (checked in assembleQuery). -/
structure WhereOptions where
  whereClauses : List WhereClause
  operator : Option String
  pagingOptions : Option PagingOptions
deriving DecidableEq, Repr

/-- OrderOptions from query-options.type.ts. -/
structure OrderOptions where
  field : String
  direction : String
  pagingOptions : Option PagingOptions
deriving DecidableEq, Repr

/-- QueryOptions from query-options.type.ts: three optional sub-options. -/
structure QueryOptions where
  whereOptions : Option WhereOptions
  orderOptions : Option OrderOptions
  pagingOptions : Option PagingOptions
deriving DecidableEq, Repr

/-- A stored document body: field name to value pairs (own properties of a
plain JavaScript object). -/
abbrev DocData := List (String × String)

/-- The backing collection, as visible through this accessor: document id to
data, plus a counter for store-generated ids. -/
structure Store where
  docs : List (String × DocData)
  counter : Nat
deriving DecidableEq, Repr

/-- The empty backing collection. -/
def emptyStore : Store := { docs := [], counter := 0 }

/-- JavaScript property read on an object: first pair with the given key. -/
def getProp (o : DocData) (k : String) : Option String :=
  (o.find? (fun kv => kv.1 == k)).map (fun kv => kv.2)

/-- Look a document up by id. -/
def getDoc (st : Store) (i : String) : Option DocData :=
  (st.docs.find? (fun kv => kv.1 == i)).map (fun kv => kv.2)

/-- Write a document at an id, replacing any existing document there. -/
def setDocList (l : List (String × DocData)) (i : String) (d : DocData) :
    List (String × DocData) :=
  (i, d) :: l.filter (fun kv => !(kv.1 == i))

/-- Write a document at an id in the store. -/
def setDoc (st : Store) (i : String) (d : DocData) : Store :=
  { st with docs := setDocList st.docs i d }

/-- Store-generated document id, from the counter. -/
def genId (n : Nat) : String := "G" ++ toString n

/-- A DocumentSnapshot as returned by getDocumentSnapshot: the collection it
was read from, the id, whether the document exists, and its data. -/
structure DocumentSnapshot where
  collectionName : String
  id : String
  found : Bool
  data : DocData
deriving DecidableEq, Repr

/-- getDocumentSnapshot from the source: one read of the document at the
given id of the given collection (the accessor serves one collection, so the
store is that collection). -/
def getDocumentSnapshot (st : Store) (collectionName : String) (i : String) :
    DocumentSnapshot :=
  match getDoc st i with
  | some d => ⟨collectionName, i, true, d⟩
  | none => ⟨collectionName, i, false, []⟩

/-- A field reference in an orderBy: FieldPath.documentId() or a named field. -/
inductive FieldRef where
  | documentId : FieldRef
  | named : String → FieldRef
deriving DecidableEq, Repr

/-- One Filter.where(field, operation, value) call. -/
structure FilterWhere where
  field : String
  operation : String
  value : String
deriving DecidableEq, Repr

/-- A Firestore Filter value as this source builds them: a single where
filter, or Filter.or over a list of where filters. -/
inductive QFilter where
  | whereF : FilterWhere → QFilter
  | orF : List FilterWhere → QFilter
deriving DecidableEq, Repr

/-- A cursor argument to startAfter: a resolved document snapshot or a raw
field value. -/
inductive Cursor where
  | snap : DocumentSnapshot → Cursor
  | raw : String → Cursor
deriving DecidableEq, Repr

/-- The query builder: each constructor records one builder call, so the
assembled value is the exact sequence of calls the source makes. -/
inductive Query where
  | coll : String → Query
  | whereC : Query → String → String → String → Query
  | whereFilter : Query → QFilter → Query
  | orderBy : Query → FieldRef → Option String → Query
  | startAfter : Query → Cursor → Query
  | limit : Query → Int → Query
deriving DecidableEq, Repr

/-- The loose-equality test the source applies to the where operator:
operator == "or". -/
def isOrOperator : Option String → Bool
  | some s => s == "or"
  | none => false

/-- Cursor application in the whereOptions branch: when startAfter is truthy
the source resolves it to a document snapshot and starts after it. -/
def whereCursor (st : Store) (cn : String) (po : PagingOptions) (q : Query) :
    Query :=
  match truthy po.startAfter with
  | some s => Query.startAfter q (Cursor.snap (getDocumentSnapshot st cn s))
  | none => q

/-- The snapshot reads performed while assembling a whereOptions query:
one read when startAfter is truthy, none otherwise. -/
def whereReads (cn : String) (po : PagingOptions) : List (String × String) :=
  match truthy po.startAfter with
  | some s => [(cn, s)]
  | none => []

/-- Cursor application in the orderOptions and bare pagingOptions branches:
a truthy startAfter is passed to the builder as the raw value, unresolved. -/
def rawCursor (po : PagingOptions) (q : Query) : Query :=
  match truthy po.startAfter with
  | some s => Query.startAfter q (Cursor.raw s)
  | none => q

/-- assembleQuery from the source, returning the assembled builder value
together with the list of document snapshot reads it performed (collection
name and id of each read).  A null options argument reaches the unguarded
options.pagingOptions access and raises a TypeError. -/
def assembleQuery (st : Store) (collectionName : String)
    (options : Option QueryOptions) :
    Except String (Query × List (String × String)) :=
  match options with
  | none => Except.error "TypeError"
  | some o =>
    if o.whereOptions.isSome && o.orderOptions.isSome then
      Except.error "Cannot use WhereOptions and OrderOptions in the same query."
    else
      match o.whereOptions with
      | some wo =>
        match wo.pagingOptions with
        | none => Except.error "PagingOptions are required."
        | some po =>
          let base := Query.coll collectionName
          let afterWhere :=
            if isOrOperator wo.operator then
              Query.whereFilter base
                (QFilter.orF (wo.whereClauses.map
                  (fun wc => FilterWhere.mk wc.field wc.operation wc.value)))
            else
              wo.whereClauses.foldl
                (fun q wc => Query.whereC q wc.field wc.operation wc.value) base
          Except.ok
            (Query.limit (whereCursor st collectionName po afterWhere) po.limit,
              whereReads collectionName po)
      | none =>
        match o.orderOptions with
        | some oo =>
          match oo.pagingOptions with
          | none => Except.error "PagingOptions are required."
          | some po =>
            let base := Query.orderBy (Query.coll collectionName)
              (FieldRef.named oo.field) (some oo.direction)
            Except.ok (Query.limit (rawCursor po base) po.limit, [])
        | none =>
          match o.pagingOptions with
          | some po =>
            let base := Query.orderBy (Query.coll collectionName)
              FieldRef.documentId none
            Except.ok (Query.limit (rawCursor po base) po.limit, [])
          | none =>
            Except.ok
              (Query.limit
                (Query.orderBy (Query.coll collectionName) FieldRef.documentId
                  (some "asc")) 10, [])

/-- A record shape (a Type in the source, the interfaces/type.interface
import): a constructor name together with the properties a blank instance
carries.  ownFields are the own property names of a fresh instance (what
Object.getOwnPropertyNames sees); protoFields are further properties visible
through the prototype chain (what the in operator additionally sees). -/
structure Shape where
  name : String
  ownFields : List String
  protoFields : List String
deriving DecidableEq, Repr

/-- Whether a blank instance of the shape has a type property, as tested by
the in operator in validate (own or inherited). -/
def shapeHasType (t : Shape) : Bool :=
  t.ownFields.contains "type" || t.protoFields.contains "type"

/-- validate from the source constructor: rejects an empty type list, and in
multi-type mode (isSingleType is types.length === 1) rejects any type whose
blank instance lacks a type property.  Source message texts contain quote
characters that are elided here. -/
def validate (types : List Shape) : Except String Unit :=
  if types.length < 1 then
    Except.error "No types passed in."
  else if !(types.length == 1) && types.any (fun t => !(shapeHasType t)) then
    Except.error
      "Invalid types passed in. For a multi-type container, each type passed in must have a type property."
  else
    Except.ok ()

/-- An update payload object: its own named properties with values, and the
properties visible through its prototype chain. -/
structure Payload where
  ownProps : List (String × String)
  protoProps : List (String × String)
deriving DecidableEq, Repr

/-- The in operator on a payload: the key is bound as an own or inherited
property. -/
def propIn (p : Payload) (k : String) : Bool :=
  (p.ownProps ++ p.protoProps).any (fun kv => kv.1 == k)

/-- JavaScript property read on a payload: own properties shadow inherited
ones. -/
def getPayloadProp (p : Payload) (k : String) : Option String :=
  ((p.ownProps ++ p.protoProps).find? (fun kv => kv.1 == k)).map (fun kv => kv.2)

/-- toLocaleLowerCase as it acts on the ASCII class names of this code
base: lower the case of every character. -/
def lowerString (s : String) : String := String.mk (s.data.map Char.toLower)

/-- The predicate the source passes to types.find in multi-type mode:
the payload has a type property (in operator) and the shape name, lower
cased, is strictly equal to the payload type value as written. -/
def matchesPayloadType (p : Payload) (t : Shape) : Bool :=
  propIn p "type" &&
    (match getPayloadProp p "type" with
     | some v => lowerString t.name == v
     | none => false)

/-- Resolution of the update shape in assembleUpdateObject: the sole type in
single-type mode (isSingleType is types.length === 1), otherwise the first
type whose lower-cased name strictly equals the payload type value. -/
def resolveShape (types : List Shape) (p : Payload) : Option Shape :=
  if types.length == 1 then types[0]?
  else types.find? (fun t => matchesPayloadType p t)

/-- assembleUpdateObject from the source: resolve the target shape, then keep
exactly the own payload properties that are not named type, appear among the
own property names of a blank instance of the shape, and are bound on the
payload (the in operator). -/
def assembleUpdateObject (types : List Shape) (p : Payload) :
    Except String (List (String × String)) :=
  match resolveShape types p with
  | none => Except.error "Could not derive updateType from partialObject."
  | some updateType =>
    Except.ok
      (p.ownProps.filter (fun kv =>
        !(kv.1 == "type") && updateType.ownFields.contains kv.1 && propIn p kv.1))

/-- The rest-destructuring in addSingle: saveObject is the object without its
id field. -/
def addSingleSave (object : DocData) : DocData :=
  object.filter (fun kv => !(kv.1 == "id"))

/-- JavaScript property assignment: overwrite the property in place when
present, append it otherwise. -/
def setProp (o : DocData) (k v : String) : DocData :=
  if (o.find? (fun kv => kv.1 == k)).isSome then
    o.map (fun kv => if kv.1 == k then (k, v) else kv)
  else
    o ++ [(k, v)]

/-- addSingle from the source.  Returns the result (the returned object or
the thrown message) together with the store after the call; a throw happens
before any write, so the store of an error result is the input store. -/
def addSingle (st : Store) (object : DocData) (hasID : Bool) :
    Except String DocData × Store :=
  let idOpt := getProp object "id"
  let saveObject := addSingleSave object
  if hasID then
    match truthy idOpt with
    | none => (Except.error "ID required to add object.", st)
    | some i =>
      if (getDoc st i).isSome then
        (Except.error "Document with this ID already exists.", st)
      else
        (Except.ok object, setDoc st i saveObject)
  else
    let g := genId st.counter
    let st2 : Store := { docs := setDocList st.docs g saveObject,
                         counter := st.counter + 1 }
    let newObj := setProp object "id"
      (match truthy idOpt with | some i => i | none => g)
    (Except.ok newObj, st2)

/-- The bulk writer loop of addMany: each object is written whole (spread
into a fresh object) at its own truthy id, or at a store-generated id. -/
def bulkWrite (st : Store) (objects : List DocData) : Store :=
  objects.foldl
    (fun s obj =>
      match truthy (getProp obj "id") with
      | some i => setDoc s i obj
      | none =>
        { docs := setDocList s.docs (genId s.counter) obj,
          counter := s.counter + 1 })
    st

/-- addMany from the source: rejects more than 500 objects before any write,
otherwise runs the bulk writer over all objects. -/
def addMany (st : Store) (objects : List DocData) : Except String Unit × Store :=
  if objects.length > 500 then
    (Except.error "cannot add more than 500 objects at once", st)
  else
    (Except.ok (), bulkWrite st objects)

/- Concrete example values used by the claim theorems and witnesses. -/

/-- QueryOptions holding only bare pagingOptions with a non-empty cursor. -/
def barePagingOpts : QueryOptions :=
  { whereOptions := none, orderOptions := none,
    pagingOptions := some { startAfter := some "doc1", limit := 5 } }

/-- A first declared shape, named with a capital letter. -/
def animalShape : Shape := ⟨"Animal", ["type", "name"], []⟩

/-- A second declared shape, so the container is multi-type. -/
def plantShape : Shape := ⟨"Plant", ["type", "height"], []⟩

/-- A payload whose type value carries the original capitalised shape name. -/
def capitalTypePayload : Payload := ⟨[("type", "Animal"), ("name", "Rex")], []⟩

/-- A single declared shape with two data fields. -/
def singleNameShape : Shape := ⟨"Animal", ["name", "age"], []⟩

/-- A payload carrying declared fields, an undeclared field and a type field. -/
def projPayload : Payload :=
  ⟨[("name", "x"), ("age", "5"), ("bogus", "y"), ("type", "foo")], []⟩

/-- A small paging cursor used by several examples. -/
def po5 : PagingOptions := { startAfter := none, limit := 5 }

/-- QueryOptions with both whereOptions and orderOptions set. -/
def conflictOpts : QueryOptions :=
  { whereOptions := some { whereClauses := [], operator := none, pagingOptions := some po5 },
    orderOptions := some { field := "f", direction := "asc", pagingOptions := some po5 },
    pagingOptions := none }

/-- Two where clauses on the same field. -/
def ageClauses : List WhereClause := [⟨"age", ">=", "18"⟩, ⟨"age", "<", "65"⟩]

/-- WhereOptions combining the clauses with the or operator. -/
def orWO : WhereOptions :=
  { whereClauses := ageClauses, operator := some "or", pagingOptions := some po5 }

/-- WhereOptions with the operator left unset. -/
def andWO : WhereOptions :=
  { whereClauses := ageClauses, operator := none, pagingOptions := some po5 }

/-- QueryOptions carrying the or-mode WhereOptions. -/
def orQO : QueryOptions :=
  { whereOptions := some orWO, orderOptions := none, pagingOptions := none }

/-- QueryOptions carrying the and-mode WhereOptions. -/
def andQO : QueryOptions :=
  { whereOptions := some andWO, orderOptions := none, pagingOptions := none }

/-- A store already holding a document at id d1. -/
def conflictStore : Store := { docs := [("d1", [("a", "b")])], counter := 0 }

/- Helper lemmas shared by the claim theorems. -/

/-- A key that occurs among the own properties is bound by the in operator. -/
theorem propIn_of_mem_own {p : Payload} {k v : String}
    (h : (k, v) ∈ p.ownProps) : propIn p k = true := by
  simp only [propIn, List.any_eq_true]
  exact ⟨(k, v), List.mem_append.mpr (Or.inl h), by simp⟩

/- Claim theorems. -/

/-- Claim C9: given an empty QueryOptions object, the assembled query orders
by document identifier ascending with limit exactly 10, and assembly performs
no snapshot read. -/
theorem defaultQuery_docId_limit10 (st : Store) (cn : String) :
    assembleQuery st cn
        (some { whereOptions := none, orderOptions := none, pagingOptions := none }) =
      Except.ok
        (Query.limit
          (Query.orderBy (Query.coll cn) FieldRef.documentId (some "asc")) 10,
          []) := rfl

/-- Claim C3: for every QueryOptions in which both whereOptions and
orderOptions are set, query assembly fails with the configuration error,
regardless of any other fields. -/
theorem whereAndOrder_conflict (st : Store) (cn : String) (o : QueryOptions)
    (h1 : o.whereOptions.isSome = true) (h2 : o.orderOptions.isSome = true) :
    assembleQuery st cn (some o) =
      Except.error "Cannot use WhereOptions and OrderOptions in the same query." := by
  simp [assembleQuery, h1, h2]

/-- Witness for claim C3 at a concrete QueryOptions value. -/
theorem whereAndOrder_conflict_witness :
    assembleQuery emptyStore "c" (some conflictOpts) =
      Except.error "Cannot use WhereOptions and OrderOptions in the same query." :=
  whereAndOrder_conflict emptyStore "c" conflictOpts (by rfl) (by rfl)

/-- Claim C1, counterexample: under bare pagingOptions with a non-empty
startAfter, assembly performs no snapshot read (the read list is empty) and
passes the raw value as the cursor, which differs from the snapshot cursor
the claim requires. -/
theorem barePaging_cursor_not_resolved_cex :
    assembleQuery emptyStore "users" (some barePagingOpts) =
      Except.ok
        (Query.limit
          (Query.startAfter
            (Query.orderBy (Query.coll "users") FieldRef.documentId none)
            (Cursor.raw "doc1")) 5, ([] : List (String × String))) ∧
    Cursor.raw "doc1" ≠
      Cursor.snap (getDocumentSnapshot emptyStore "users" "doc1") :=
  ⟨rfl, by decide⟩

/-- Claim C1, amended: for every QueryOptions containing only bare
pagingOptions with a non-empty startAfter value, query assembly orders by
document identifier and applies the startAfter value directly as a raw
cursor bound, with no snapshot resolution and no extra read, then applies
the limit. -/
theorem barePaging_applies_raw_cursor (st : Store) (cn : String)
    (po : PagingOptions) (s : String)
    (hsa : po.startAfter = some s) (hs : ¬ s = "") :
    assembleQuery st cn
        (some { whereOptions := none, orderOptions := none, pagingOptions := some po }) =
      Except.ok
        (Query.limit
          (Query.startAfter
            (Query.orderBy (Query.coll cn) FieldRef.documentId none)
            (Cursor.raw s)) po.limit, []) := by
  simp [assembleQuery, rawCursor, truthy, hsa, hs]

/-- Witness for the amended claim C1 at a concrete cursor. -/
theorem barePaging_applies_raw_cursor_witness :
    assembleQuery emptyStore "users" (some barePagingOpts) =
      Except.ok
        (Query.limit
          (Query.startAfter
            (Query.orderBy (Query.coll "users") FieldRef.documentId none)
            (Cursor.raw "doc1")) 5, []) :=
  barePaging_applies_raw_cursor emptyStore "users"
    { startAfter := some "doc1", limit := 5 } "doc1" rfl (by decide)

/-- Claim C2, counterexample: a payload whose type value equals a declared
shape name up to case (here letter for letter) still fails shape resolution,
because the source lower-cases only the shape name and compares it strictly
with the payload type value as written.  The comparison is therefore not
case-insensitive. -/
theorem updateShape_not_case_insensitive_cex :
    assembleUpdateObject [animalShape, plantShape] capitalTypePayload =
      Except.error "Could not derive updateType from partialObject." ∧
    getPayloadProp capitalTypePayload "type" = some "Animal" ∧
    lowerString "Animal" = lowerString animalShape.name :=
  ⟨by rfl, by rfl, by rfl⟩

/-- Claim C2, amended: in multi-shape mode the target shape is the first
declared shape whose lower-cased name is strictly equal to the payload type
value as written (so only an exactly lower-cased type value can match a
capitalised shape name), and projection fails with the fatal
cannot-derive-shape error exactly when no declared shape matches under that
comparison. -/
theorem updateShape_lowercase_match (types : List Shape) (p : Payload)
    (h : ¬ types.length = 1) :
    (assembleUpdateObject types p =
        Except.error "Could not derive updateType from partialObject.") ↔
      ∀ t ∈ types, matchesPayloadType p t = false := by
  have hl : (types.length == 1) = false := by simp [h]
  unfold assembleUpdateObject resolveShape
  rw [hl]
  simp only [Bool.false_eq_true, if_false]
  cases hf : types.find? (fun t => matchesPayloadType p t) with
  | none =>
    constructor
    · intro _ t ht
      have := List.find?_eq_none.mp hf t ht
      simpa using this
    · intro _
      rfl
  | some ut =>
    constructor
    · intro he
      cases he
    · intro hall
      have h1 := List.mem_of_find?_eq_some hf
      have h2 := List.find?_some hf
      rw [hall ut h1] at h2
      cases h2

/-- Witness for the amended claim C2 at a concrete multi-shape container. -/
theorem updateShape_lowercase_match_witness :
    (assembleUpdateObject [animalShape, plantShape] capitalTypePayload =
        Except.error "Could not derive updateType from partialObject.") ↔
      ∀ t ∈ [animalShape, plantShape],
        matchesPayloadType capitalTypePayload t = false :=
  updateShape_lowercase_match [animalShape, plantShape] capitalTypePayload
    (by decide)

/-- Claim C4: for every update payload and resolved shape, the projected
update object contains a field pair if and only if the field is not named
type, is among the own field names of a blank instance of the resolved
shape, and is an own property of the payload; every other payload field is
dropped without an error. -/
theorem updateProjection_membership (types : List Shape) (p : Payload)
    (ut : Shape) (h : resolveShape types p = some ut) (k v : String) :
    ∃ r, assembleUpdateObject types p = Except.ok r ∧
      ((k, v) ∈ r ↔
        (¬ k = "type" ∧ ut.ownFields.contains k = true ∧ (k, v) ∈ p.ownProps)) := by
  refine ⟨p.ownProps.filter (fun kv =>
      !(kv.1 == "type") && ut.ownFields.contains kv.1 && propIn p kv.1), ?_, ?_⟩
  · unfold assembleUpdateObject
    rw [h]
  · constructor
    · intro hm
      obtain ⟨h1, h2⟩ := List.mem_filter.mp hm
      simp only [Bool.and_eq_true, Bool.not_eq_true', beq_eq_false_iff_ne] at h2
      exact ⟨h2.1.1, h2.1.2, h1⟩
    · rintro ⟨h1, h2, h3⟩
      refine List.mem_filter.mpr ⟨h3, ?_⟩
      have hpi := propIn_of_mem_own h3
      simp only [Bool.and_eq_true, Bool.not_eq_true', beq_eq_false_iff_ne]
      exact ⟨⟨h1, h2⟩, hpi⟩

/-- Witness for claim C4: a payload with a declared field, an undeclared
field and a type field against a single declared shape. -/
theorem updateProjection_membership_witness :
    ∃ r, assembleUpdateObject [singleNameShape] projPayload = Except.ok r ∧
      (("name", "x") ∈ r ↔
        (¬ "name" = "type" ∧ singleNameShape.ownFields.contains "name" = true ∧
          ("name", "x") ∈ projPayload.ownProps)) :=
  updateProjection_membership [singleNameShape] projPayload singleNameShape
    (by rfl) "name" "x"

/-- Claim C5: accessor construction fails with a configuration error exactly
when the shape list is empty, or when more than one shape is declared and
some declared shape lacks a type property on a blank instance; with exactly
one shape construction always succeeds, with no type requirement. -/
theorem validate_characterisation :
    (∀ types : List Shape,
        (∃ e, validate types = Except.error e) ↔
          (types = [] ∨ (1 < types.length ∧ ∃ t ∈ types, shapeHasType t = false))) ∧
    (∀ t : Shape, validate [t] = Except.ok ()) := by
  constructor
  · intro types
    unfold validate
    split_ifs with h1 h2
    · constructor
      · intro _
        exact Or.inl (List.length_eq_zero.mp (Nat.lt_one_iff.mp h1))
      · intro _
        exact ⟨_, rfl⟩
    · constructor
      · intro _
        right
        rw [Bool.and_eq_true] at h2
        obtain ⟨ha, hb⟩ := h2
        have hne : types.length ≠ 1 := by simpa using ha
        have hge : 1 ≤ types.length := Nat.not_lt.mp h1
        refine ⟨by omega, ?_⟩
        rw [List.any_eq_true] at hb
        obtain ⟨t, ht, hf⟩ := hb
        exact ⟨t, ht, by simpa using hf⟩
      · intro _
        exact ⟨_, rfl⟩
    · constructor
      · rintro ⟨e, he⟩
        cases he
      · rintro (hnil | ⟨hlt, t, ht, hf⟩)
        · subst hnil
          exact absurd (by simp) h1
        · refine absurd ?_ h2
          rw [Bool.and_eq_true]
          refine ⟨by simpa using Nat.ne_of_gt hlt, ?_⟩
          rw [List.any_eq_true]
          exact ⟨t, ht, by simp [hf]⟩
  · intro t
    simp [validate]

/-- Claim C6: for every whereOptions with operator or, query assembly
combines all where clauses into one compound OR filter; with the operator
unset or set to and, it applies each where clause as an independent chained
predicate in list order.  Cursor and limit application are unchanged in both
modes. -/
theorem whereOperator_or_vs_and (st : Store) (cn : String) (o : QueryOptions)
    (wo : WhereOptions) (po : PagingOptions)
    (hwo : o.whereOptions = some wo) (hoo : o.orderOptions = none)
    (hpo : wo.pagingOptions = some po) :
    (wo.operator = some "or" →
      assembleQuery st cn (some o) =
        Except.ok
          (Query.limit
            (whereCursor st cn po
              (Query.whereFilter (Query.coll cn)
                (QFilter.orF (wo.whereClauses.map
                  (fun wc => FilterWhere.mk wc.field wc.operation wc.value)))))
            po.limit, whereReads cn po)) ∧
    ((wo.operator = none ∨ wo.operator = some "and") →
      assembleQuery st cn (some o) =
        Except.ok
          (Query.limit
            (whereCursor st cn po
              (wo.whereClauses.foldl
                (fun q wc => Query.whereC q wc.field wc.operation wc.value)
                (Query.coll cn)))
            po.limit, whereReads cn po)) := by
  constructor
  · intro hop
    simp [assembleQuery, hwo, hoo, hpo, isOrOperator, hop]
  · intro hop
    rcases hop with hop | hop <;>
      simp [assembleQuery, hwo, hoo, hpo, isOrOperator, hop]

/-- Witness for claim C6: the two age clauses once under the or operator and
once with the operator unset. -/
theorem whereOperator_or_vs_and_witness :
    (assembleQuery emptyStore "c" (some orQO) =
      Except.ok
        (Query.limit
          (whereCursor emptyStore "c" po5
            (Query.whereFilter (Query.coll "c")
              (QFilter.orF (ageClauses.map
                (fun wc => FilterWhere.mk wc.field wc.operation wc.value)))))
          po5.limit, whereReads "c" po5)) ∧
    (assembleQuery emptyStore "c" (some andQO) =
      Except.ok
        (Query.limit
          (whereCursor emptyStore "c" po5
            (ageClauses.foldl
              (fun q wc => Query.whereC q wc.field wc.operation wc.value)
              (Query.coll "c")))
          po5.limit, whereReads "c" po5)) :=
  ⟨(whereOperator_or_vs_and emptyStore "c" orQO orWO po5 rfl rfl rfl).1 rfl,
   (whereOperator_or_vs_and emptyStore "c" andQO andWO po5 rfl rfl rfl).2
     (Or.inl rfl)⟩

/-- Claim C7: create-one with hasID true targeting an id whose document
already exists fails with the conflict error and performs no write: the
store after the call is the input store and the existing document is
unchanged. -/
theorem addSingle_conflict_no_write (st : Store) (obj : DocData) (i : String)
    (d : DocData)
    (h1 : getProp obj "id" = some i) (h2 : ¬ i = "") (h3 : getDoc st i = some d) :
    addSingle st obj true =
      (Except.error "Document with this ID already exists.", st) ∧
    getDoc (addSingle st obj true).2 i = some d := by
  have hmain : addSingle st obj true =
      (Except.error "Document with this ID already exists.", st) := by
    simp [addSingle, h1, truthy, h2, h3]
  exact ⟨hmain, by rw [hmain]; exact h3⟩

/-- Witness for claim C7 at a store already holding the target document. -/
theorem addSingle_conflict_no_write_witness :
    (addSingle conflictStore [("id", "d1"), ("x", "y")] true =
      (Except.error "Document with this ID already exists.", conflictStore)) ∧
    getDoc (addSingle conflictStore [("id", "d1"), ("x", "y")] true).2 "d1" =
      some [("a", "b")] :=
  addSingle_conflict_no_write conflictStore [("id", "d1"), ("x", "y")] "d1"
    [("a", "b")] (by rfl) (by decide) (by rfl)

/-- Claim C8: create-many with exactly 500 records is accepted and issues
the bulk write; with more than 500 records it fails with the batch error and
the store is untouched. -/
theorem addMany_batch_ceiling (st : Store) (objects : List DocData) :
    (objects.length = 500 →
      addMany st objects = (Except.ok (), bulkWrite st objects)) ∧
    (500 < objects.length →
      addMany st objects =
        (Except.error "cannot add more than 500 objects at once", st)) := by
  constructor
  · intro h
    simp [addMany, h]
  · intro h
    simp [addMany, h]

/-- Witness for claim C8 with lists of exactly 500 and of 501 records. -/
theorem addMany_batch_ceiling_witness :
    (addMany emptyStore (List.replicate 500 [("a", "1")]) =
      (Except.ok (), bulkWrite emptyStore (List.replicate 500 [("a", "1")]))) ∧
    (addMany emptyStore (List.replicate 501 [("a", "1")]) =
      (Except.error "cannot add more than 500 objects at once", emptyStore)) :=
  ⟨(addMany_batch_ceiling emptyStore (List.replicate 500 [("a", "1")])).1
      (by rw [List.length_replicate]),
   (addMany_batch_ceiling emptyStore (List.replicate 501 [("a", "1")])).2
      (by rw [List.length_replicate]; decide)⟩

/-- Claim C10: a record passed to create-many with a set id field is written
whole, so the stored document data still contains the id field, while
create-one always strips the id field from the saved object before writing. -/
theorem addMany_keeps_id_addSingle_strips (st : Store) (obj : DocData)
    (i : String)
    (h1 : getProp obj "id" = some i) (h2 : ¬ i = "") :
    getDoc (addMany st [obj]).2 i = some obj ∧
    ("id", i) ∈ obj ∧
    ∀ v, ("id", v) ∉ addSingleSave obj := by
  refine ⟨?_, ?_, ?_⟩
  · have hm : (addMany st [obj]).2 = bulkWrite st [obj] := by
      simp [addMany]
    rw [hm]
    simp [bulkWrite, h1, truthy, h2, getDoc, setDoc, setDocList]
  · unfold getProp at h1
    cases hf : obj.find? (fun kv => kv.1 == "id") with
    | none =>
      rw [hf] at h1
      cases h1
    | some kv =>
      rw [hf] at h1
      have hkv2 : kv.2 = i := by simpa using h1
      have hkv1 : kv.1 = "id" := by simpa using List.find?_some hf
      have hm := List.mem_of_find?_eq_some hf
      have hkv : kv = ("id", i) := by
        cases kv
        simp_all
      rwa [hkv] at hm
  · intro v hv
    have := (List.mem_filter.mp hv).2
    simp at this

/-- Witness for claim C10 at a record carrying its own id. -/
theorem addMany_keeps_id_addSingle_strips_witness :
    getDoc (addMany emptyStore [[("id", "x1"), ("a", "b")]]).2 "x1" =
      some [("id", "x1"), ("a", "b")] ∧
    ("id", "x1") ∈ [("id", "x1"), ("a", "b")] ∧
    ∀ v, ("id", v) ∉ addSingleSave [("id", "x1"), ("a", "b")] :=
  addMany_keeps_id_addSingle_strips emptyStore [("id", "x1"), ("a", "b")] "x1"
    (by rfl) (by decide)

end Firebary
